import Mathlib

/-!
# Verification of the adversarial-debate / citation-moat pipeline

A shallow embedding, in Lean 4, of the algorithmic core of the
`game-theoretic-paper-gen` repository: the citation moat
(`src/citation_moat/moat_engine.py`, `extractor.py`), the scoring and voting
rubric (`src/engine/scoring.py`, `voting.py`), the adaptive debate loop
(`src/engine/adaptive_debate.py`) and the consensus generator
(`src/output/consensus.py`).

Conventions of the embedding:
* Python `float` values are modelled as `ℚ` (all constants in the source are
  exact decimals, and the verified properties are order/compare properties).
* Python `str` values that undergo slicing (the rewritten clean text) are
  modelled as `List Char`; `s[a:b]` becomes `(s.take b).drop a`.
* `async` functions carry no concurrency that matters here (the moat loop is
  sequential); they are modelled as pure functions.  Fallible external calls
  (agent backends) are modelled as `Except String` values supplied by an
  environment, and network lookups as environment functions returning their
  result records.
* Python's stable `sorted` is modelled by `List.insertionSort` (also stable),
  with the same key.
-/

namespace PaperGen

/-! ## Data model: `web_validator.py` -/

/-- `ValidationStatus` enum from `web_validator.py`. -/
inductive ValidationStatus where
  | verified
  | partialMatch
  | notFound
  | error
  | pending
deriving DecidableEq, Repr

/-- `ValidationResult` dataclass from `web_validator.py`. -/
structure ValidationResult where
  status : ValidationStatus
  confidence : ℚ
  source : Option String := none
  matchedTitle : Option String := none
  matchedUrl : Option String := none
  matchedDoi : Option String := none
  errorMessage : Option String := none
  searchQueriesUsed : List String := []
deriving DecidableEq, Repr

/-! ## Data model: `extractor.py` -/

/-- `CitationType` enum from `extractor.py`. -/
inductive CitationType where
  | authorYear
  | numbered
  | doi
  | url
  | unknown
deriving DecidableEq, Repr

/-- `ExtractedCitation` dataclass from `extractor.py`.  `position` is the
(start, end) character span of the match in the source text. -/
structure ExtractedCitation where
  rawText : String
  citationType : CitationType
  position : Nat × Nat
  authors : Option String := none
  year : Option String := none
  doi : Option String := none
  url : Option String := none
  number : Option Nat := none
deriving DecidableEq, Repr

/-- Python truthiness of an `Optional[str]`: `None` and `""` are falsy. -/
def strTruthy : Option String → Bool
  | none => false
  | some s => !s.isEmpty

/-- `ExtractedCitation.to_search_query` from `extractor.py`. -/
def ExtractedCitation.toSearchQuery (c : ExtractedCitation) : String :=
  if strTruthy c.doi then "DOI:" ++ c.doi.getD ""
  else if strTruthy c.authors && strTruthy c.year then
    c.authors.getD "" ++ " " ++ c.year.getD ""
  else if strTruthy c.url then c.url.getD ""
  else c.rawText

/-- `CitationExtractor._priority` from `extractor.py`: DOI 4, author-year 3,
numbered 2, URL 1, unknown 0. -/
def priorityOf (c : ExtractedCitation) : Nat :=
  match c.citationType with
  | CitationType.doi => 4
  | CitationType.authorYear => 3
  | CitationType.numbered => 2
  | CitationType.url => 1
  | CitationType.unknown => 0

/-- One iteration of the loop in `CitationExtractor._deduplicate`:
`result` is the accumulator (never empty when called), `c` the next citation
in start-position order. -/
def dedupStep (result : List ExtractedCitation) (c : ExtractedCitation) :
    List ExtractedCitation :=
  match result.getLast? with
  | none => [c]
  | some last =>
    if c.position.1 ≥ last.position.2 then
      result ++ [c]
    else if c.position.2 > last.position.2 then
      if priorityOf c > priorityOf last then result.dropLast ++ [c] else result
    else
      result

/-- `CitationExtractor._deduplicate` from `extractor.py`: sort by start
position (stably), seed the result with the first citation, then fold
`dedupStep` over the rest. -/
def deduplicate (citations : List ExtractedCitation) : List ExtractedCitation :=
  match citations with
  | [] => []
  | _ =>
    let sortedCitations :=
      citations.insertionSort (fun a b => a.position.1 ≤ b.position.1)
    match sortedCitations with
    | [] => []
    | first :: rest => rest.foldl dedupStep [first]

/-! ## Data model: `doi_resolver.py` -/

/-- `DOIMetadata` dataclass from `doi_resolver.py`. -/
structure DOIMetadata where
  doi : String
  title : Option String := none
  authors : List String := []
  year : Option Int := none
  journal : Option String := none
  url : Option String := none
  abstract : Option String := none
  resolved : Bool := false
  errorMessage : Option String := none
deriving DecidableEq, Repr

/-- The dict built from a `DOIMetadata` at `moat_engine.py` lines 167-172. -/
structure DOIMetadataDict where
  title : Option String
  authors : List String
  year : Option Int
  resolved : Bool
deriving DecidableEq, Repr

/-! ## Data model: `moat_engine.py` -/

/-- `MoatDecision` enum from `moat_engine.py`. -/
inductive MoatDecision where
  | keep
  | modify
  | delete
  | flag
deriving DecidableEq, Repr

/-- `CitationVerification` dataclass from `moat_engine.py`. -/
structure CitationVerification where
  originalCitation : ExtractedCitation
  decision : MoatDecision
  agentAVerified : Bool := false
  agentBVerified : Bool := false
  webValidation : Option ValidationResult := none
  doiMetadata : Option DOIMetadataDict := none
  alternativeSource : Option String := none
  reason : String := ""
  confidence : ℚ := 0
deriving DecidableEq, Repr

/-- `MoatReport` dataclass from `moat_engine.py`.  The clean text is kept as a
list of characters (see module conventions). -/
structure MoatReport where
  totalCitations : Nat := 0
  verifiedCount : Nat := 0
  modifiedCount : Nat := 0
  deletedCount : Nat := 0
  flaggedCount : Nat := 0
  verifications : List CitationVerification := []
  cleanText : List Char := []
deriving DecidableEq, Repr

/-- `MoatReport.verification_rate` property from `moat_engine.py`:
100.0 when there are no citations, else `verified/total * 100`. -/
def MoatReport.verificationRate (r : MoatReport) : ℚ :=
  if r.totalCitations = 0 then 100
  else ((r.verifiedCount : ℚ) / (r.totalCitations : ℚ)) * 100

/-- Python `needle in hay` on strings, over character lists. -/
def containsSub : List Char → List Char → Bool
  | [], needle => needle.isEmpty
  | h :: t, needle => List.isPrefixOf needle (h :: t) || containsSub t needle

/-- Python `str.lower()` (ASCII-adequate for the keyword lists used here). -/
def pyLower (s : String) : String := s.map Char.toLower

/-- `CitationMoatEngine._agent_verify` from `moat_engine.py`.  The agent's
`verify_citation` call either returns response content or raises; an
exception is caught and the verdict falls back to whether the *web* result
was VERIFIED.  On success the free-text answer counts as affirmative when it
contains one of the confirmation tokens. -/
def agentVerify (agentCall : Except String String)
    (webResult : ValidationResult) : Bool :=
  match agentCall with
  | Except.ok content =>
    let c := (pyLower content).data
    containsSub c "verified".data || containsSub c "valid".data ||
      containsSub c "confirmed".data
  | Except.error _ => decide (webResult.status = ValidationStatus.verified)

/-- `CitationMoatEngine._make_decision` from `moat_engine.py`: the decision
and reason are computed from exactly the web status, the two agent verdicts
and the strict-mode flag. -/
def makeDecision (strictMode : Bool) (webStatus : ValidationStatus)
    (agentA agentB : Bool) : MoatDecision × String :=
  if agentA ∧ agentB ∧ webStatus = ValidationStatus.verified then
    (MoatDecision.keep, "Both agents verified, web source found")
  else if webStatus = ValidationStatus.partialMatch then
    if agentA ∨ agentB then
      (MoatDecision.modify, "Partial match found, needs correction")
    else
      (MoatDecision.flag, "Partial match, needs review")
  else if webStatus = ValidationStatus.verified ∧ agentA ∧ ¬agentB then
    (MoatDecision.flag, "Agent A verified, Agent B disagrees")
  else if webStatus = ValidationStatus.verified ∧ agentB ∧ ¬agentA then
    (MoatDecision.flag, "Agent B verified, Agent A disagrees")
  else if webStatus = ValidationStatus.verified ∧ ¬agentA ∧ ¬agentB then
    (MoatDecision.flag, "Web verified but both agents uncertain")
  else if strictMode then
    (MoatDecision.delete, "Cannot verify source, strict mode enabled")
  else
    (MoatDecision.flag, "Cannot verify source, flagged for review")

/-- The §4.3 decision table exactly as the specification words it: KEEP iff
verified web status and both agents true; on partial-match MODIFY iff at
least one agent verdict; FLAG when web-verified but not both agents; any
other status deletes in strict mode and flags otherwise. -/
def specDecisionTable (strictMode : Bool) (webStatus : ValidationStatus)
    (agentA agentB : Bool) : MoatDecision :=
  match webStatus with
  | ValidationStatus.verified =>
    if agentA ∧ agentB then MoatDecision.keep else MoatDecision.flag
  | ValidationStatus.partialMatch =>
    if agentA ∨ agentB then MoatDecision.modify else MoatDecision.flag
  | _ => if strictMode then MoatDecision.delete else MoatDecision.flag

/-- `CitationMoatEngine._calculate_confidence` from `moat_engine.py`. -/
def calculateConfidence (webValidation : Option ValidationResult)
    (agentA agentB : Bool) : ℚ :=
  let c0 : ℚ := 0
  let c1 :=
    match webValidation with
    | none => c0
    | some w =>
      if w.status = ValidationStatus.verified then c0 + 40
      else if w.status = ValidationStatus.partialMatch then c0 + 20
      else c0
  let c2 := if agentA then c1 + 30 else c1
  if agentB then c2 + 30 else c2

/-! ## The moat pipeline: `CitationMoatEngine` -/

/-- The engine's external collaborators, as `CitationMoatEngine` holds them:
the strict-mode flag, the web validator, the DOI resolver, and the two
optional agents.  An agent is a function from the citation to either the
response content of its `verify_citation` call or the exception it raised. -/
structure MoatEnv where
  strictMode : Bool
  webValidate : ExtractedCitation → ValidationResult
  doiResolve : String → DOIMetadata
  proponent : Option (ExtractedCitation → Except String String)
  reviewer : Option (ExtractedCitation → Except String String)

/-- `CitationMoatEngine._verify_single_citation` from `moat_engine.py`:
web validation, optional DOI resolution, the two agent verdicts (falling
back to the web verdict when no agent is configured), then the decision,
reason and blended confidence.  `alternative_source` is never assigned and
stays at its dataclass default `None`. -/
def verifySingleCitation (env : MoatEnv) (citation : ExtractedCitation) :
    CitationVerification :=
  let webResult := env.webValidate citation
  let doiMeta : Option DOIMetadataDict :=
    if strTruthy citation.doi then
      let m := env.doiResolve (citation.doi.getD "")
      some (DOIMetadataDict.mk m.title m.authors m.year m.resolved)
    else none
  let agentA :=
    match env.proponent with
    | some f => agentVerify (f citation) webResult
    | none => decide (webResult.status = ValidationStatus.verified)
  let agentB :=
    match env.reviewer with
    | some f => agentVerify (f citation) webResult
    | none => decide (webResult.status = ValidationStatus.verified)
  let dr := makeDecision env.strictMode webResult.status agentA agentB
  CitationVerification.mk citation dr.1 agentA agentB (some webResult) doiMeta
    none dr.2 (calculateConfidence (some webResult) agentA agentB)

/-- `CitationMoatEngine._verify_citations`: the sequential loop appending one
verification per citation, i.e. a map. -/
def verifyCitations (env : MoatEnv) (citations : List ExtractedCitation) :
    List CitationVerification :=
  citations.map (verifySingleCitation env)

/-- The body of the counting loop in `verify_text` (step 3): each
verification increments exactly the counter of its decision. -/
def tallyDecision (r : MoatReport) (v : CitationVerification) : MoatReport :=
  match v.decision with
  | MoatDecision.keep => { r with verifiedCount := r.verifiedCount + 1 }
  | MoatDecision.modify => { r with modifiedCount := r.modifiedCount + 1 }
  | MoatDecision.delete => { r with deletedCount := r.deletedCount + 1 }
  | MoatDecision.flag => { r with flaggedCount := r.flaggedCount + 1 }

/-- One edit of the loop in `CitationMoatEngine._generate_clean_text`:
Python slicing `clean[:start] + ... + clean[end:]` is
`clean.take start ++ ... ++ clean.drop end`.  A MODIFY only rewrites when
`alternative_source` is truthy (non-`None`, non-empty). -/
def renderEdit (clean : List Char) (v : CitationVerification) : List Char :=
  let s := v.originalCitation.position.1
  let e := v.originalCitation.position.2
  match v.decision with
  | MoatDecision.delete =>
    clean.take s ++ "[CITATION REMOVED]".data ++ clean.drop e
  | MoatDecision.modify =>
    if strTruthy v.alternativeSource then
      clean.take s ++ (v.alternativeSource.getD "").data ++ clean.drop e
    else clean
  | MoatDecision.flag =>
    clean.take s ++ "[NEEDS REVIEW: ".data ++ ((clean.take e).drop s) ++
      "]".data ++ clean.drop e
  | MoatDecision.keep => clean

/-- The stable descending sort by start position used by
`_generate_clean_text` (`sorted(..., key=position[0], reverse=True)`). -/
def sortByStartDesc (vs : List CitationVerification) :
    List CitationVerification :=
  vs.insertionSort
    (fun a b => b.originalCitation.position.1 ≤ a.originalCitation.position.1)

/-- `CitationMoatEngine._generate_clean_text` from `moat_engine.py`. -/
def generateCleanText (originalText : List Char)
    (verifications : List CitationVerification) : List Char :=
  (sortByStartDesc verifications).foldl renderEdit originalText

/-- `CitationMoatEngine.verify_text` from `moat_engine.py`, with the
extraction step abstracted: the `citations` argument stands for
`self.extractor.extract_all(text)` (the regex scan is an external
collaborator of this embedding; its output shape is constrained where a
theorem needs it).  Steps 2-4 are mirrored: verify each citation, count the
decisions, rewrite the clean text. -/
def verifyTextFrom (env : MoatEnv) (text : List Char)
    (citations : List ExtractedCitation) : MoatReport :=
  let report0 : MoatReport :=
    { totalCitations := citations.length, verifications := [] }
  if citations.isEmpty then
    { report0 with cleanText := text }
  else
    let vs := verifyCitations env citations
    let r1 := { report0 with verifications := vs }
    let r2 := vs.foldl tallyDecision r1
    { r2 with cleanText := generateCleanText text vs }

/-- Model of `CitationExtractor.extract_all` downstream of the regex scan:
the `matches` argument stands for the concatenation of all
`pattern.finditer(text)` results over the pattern families in declaration
order (author-year patterns, numbered, DOI, URL); the function then
deduplicates on overlapping spans and sorts by start position, exactly as
lines 111-117 of `extractor.py`. -/
def extractAllFrom (rawMatches : List ExtractedCitation) :
    List ExtractedCitation :=
  (deduplicate rawMatches).insertionSort (fun a b => a.position.1 ≤ b.position.1)

/-! ## Specification-side rebuild of the clean text

`rebuildClean text pos vs` is the *specification's* reading of the rewrite:
walk the citations left to right, copying the text between spans verbatim
and rendering each span according to its decision.  The frame/effect
theorem for `_generate_clean_text` proves the implementation (reverse-order
in-place slicing) equal to this form. -/

/-- How one decided span reads in the clean text: DELETE becomes the fixed
marker, FLAG wraps the span, MODIFY substitutes only a truthy alternative
source, KEEP (and MODIFY without an alternative) leaves the span verbatim. -/
def renderSpan (v : CitationVerification) (span : List Char) : List Char :=
  match v.decision with
  | MoatDecision.delete => "[CITATION REMOVED]".data
  | MoatDecision.modify =>
    if strTruthy v.alternativeSource then (v.alternativeSource.getD "").data
    else span
  | MoatDecision.flag => "[NEEDS REVIEW: ".data ++ span ++ "]".data
  | MoatDecision.keep => span

/-- Left-to-right reconstruction of the clean text from position `pos`. -/
def rebuildClean (text : List Char) (pos : Nat) :
    List CitationVerification → List Char
  | [] => text.drop pos
  | v :: rest =>
    ((text.take v.originalCitation.position.1).drop pos) ++
      renderSpan v ((text.take v.originalCitation.position.2).drop
        v.originalCitation.position.1) ++
      rebuildClean text v.originalCitation.position.2 rest

/-- Executable well-formedness of a list of decided spans: starts at or
after `lo`, each span non-empty, within the text, and ending before the
next span starts (the shape `extract_all` guarantees for its output). -/
def spansChainB (lo textLen : Nat) : List CitationVerification → Bool
  | [] => true
  | v :: rest =>
    (decide (lo ≤ v.originalCitation.position.1 ∧
      v.originalCitation.position.1 < v.originalCitation.position.2 ∧
      v.originalCitation.position.2 ≤ textLen)) &&
    spansChainB v.originalCitation.position.2 textLen rest

/-! ## Data model: `scoring.py` -/

/-- `RoundScore` dataclass from `scoring.py`: five sub-scores on [0,1]. -/
structure RoundScore where
  accuracy : ℚ := 0
  evidence : ℚ := 0
  logic : ℚ := 0
  methodology : ℚ := 0
  clarity : ℚ := 0
deriving DecidableEq, Repr

/-- `RoundScore.total_score`: the fixed-weight (25/25/20/15/15) weighted sum
of the sub-scores, times 100. -/
def RoundScore.totalScore (s : RoundScore) : ℚ :=
  (s.accuracy * 0.25 + s.evidence * 0.25 + s.logic * 0.20 +
    s.methodology * 0.15 + s.clarity * 0.15) * 100

/-- The clamp `min(1.0, max(0.0, score))` ending every scoring method. -/
def clamp01 (x : ℚ) : ℚ := min 1 (max 0 x)

/-- `ScoringSystem._score_accuracy` from `scoring.py`. -/
def scoreAccuracy (citationReport : Option MoatReport)
    (reviewerResponse : String) : ℚ :=
  let score : ℚ := 0.5
  let score :=
    match citationReport with
    | some r => r.verificationRate / 100
    | none => score
  let rl := (pyLower reviewerResponse).data
  let score :=
    if containsSub rl "inaccurate".data || containsSub rl "incorrect".data then
      score * 0.7
    else if containsSub rl "accurate".data || containsSub rl "correct".data then
      min 1 (score * 1.2)
    else score
  clamp01 score

/-- `ScoringSystem._score_evidence` from `scoring.py`. -/
def scoreEvidence (proponentResponse : String)
    (citationReport : Option MoatReport) : ℚ :=
  let score : ℚ := 0.5
  let score :=
    match citationReport with
    | some r =>
      if r.totalCitations > 0 then
        0.3 + ((r.verifiedCount : ℚ) / (r.totalCitations : ℚ)) * 0.7
      else 0.2
    | none => score
  let rl := (pyLower proponentResponse).data
  let markers := ["study shows", "research indicates", "evidence suggests",
    "data demonstrates"]
  let markerCount := (markers.filter (fun m => containsSub rl m.data)).length
  let score := score + (markerCount : ℚ) * 0.05
  clamp01 score

/-- `ScoringSystem._score_logic` from `scoring.py`. -/
def scoreLogic (proponentResponse reviewerResponse : String) : ℚ :=
  let score : ℚ := 0.6
  let rl := (pyLower proponentResponse).data
  let revl := (pyLower reviewerResponse).data
  let logicWords := ["therefore", "because", "thus", "consequently", "hence",
    "follows that"]
  let logicCount := (logicWords.filter (fun w => containsSub rl w.data)).length
  let score := score + (logicCount : ℚ) * 0.05
  let fallacyWords := ["fallacy", "non sequitur", "circular", "strawman",
    "ad hominem"]
  let fallacyCount :=
    (fallacyWords.filter (fun f => containsSub revl f.data)).length
  let score := score - (fallacyCount : ℚ) * 0.15
  clamp01 score

/-- `ScoringSystem._score_methodology` from `scoring.py`. -/
def scoreMethodology (proponentResponse : String) : ℚ :=
  let score : ℚ := 0.6
  let rl := (pyLower proponentResponse).data
  let methodMarkers := ["methodology", "systematic", "peer-reviewed",
    "replicated", "controlled"]
  let markerCount :=
    (methodMarkers.filter (fun m => containsSub rl m.data)).length
  let score := score + (markerCount : ℚ) * 0.08
  let score :=
    if containsSub rl "limitation".data || containsSub rl "caveat".data then
      score + 0.1
    else score
  clamp01 score

/-- Number of words of Python `s.split()` (maximal non-whitespace runs). -/
def countWords : List Char → Bool → Nat
  | [], _ => 0
  | ch :: t, inWord =>
    if ch.isWhitespace then countWords t false
    else (if inWord then 0 else 1) + countWords t true

/-- `len(s.split())`. -/
def pyWordCount (s : String) : Nat := countWords s.data false

/-- `ScoringSystem._score_clarity` from `scoring.py`. -/
def scoreClarity (proponentResponse : String) : ℚ :=
  let score : ℚ := 0.7
  let wordCount := pyWordCount proponentResponse
  let score :=
    if wordCount > 1000 then score - 0.1
    else if wordCount < 100 then score - 0.1
    else score
  let structureMarkers := ["first", "second", "finally", "in conclusion",
    "to summarize"]
  let pl := (pyLower proponentResponse).data
  let structureCount :=
    (structureMarkers.filter (fun m => containsSub pl m.data)).length
  let score := score + (structureCount : ℚ) * 0.05
  clamp01 score

/-- `ScoringSystem.score_round` from `scoring.py`. -/
def scoreRound (proponentResponse reviewerResponse : String)
    (citationReport : Option MoatReport) : RoundScore :=
  RoundScore.mk (scoreAccuracy citationReport reviewerResponse)
    (scoreEvidence proponentResponse citationReport)
    (scoreLogic proponentResponse reviewerResponse)
    (scoreMethodology proponentResponse)
    (scoreClarity proponentResponse)

/-! ## Data model: `voting.py` -/

/-- `VoteStatus` enum from `voting.py`. -/
inductive VoteStatus where
  | pass
  | fail
  | abstain
deriving DecidableEq, Repr

/-- `CriterionVote` dataclass from `voting.py`. -/
structure CriterionVote where
  criterion : String
  score : ℚ
  status : VoteStatus
  feedback : String := ""
deriving DecidableEq, Repr

/-- `VotingResult` dataclass from `voting.py`.  The criterion-scores dict is
kept as an association list in criteria order. -/
structure VotingResult where
  passed : Bool
  weightedAverage : ℚ
  criterionScores : List (String × ℚ) := []
  criterionVotes : List CriterionVote := []
  feedback : String := ""
  votingRounds : Nat := 0
deriving DecidableEq, Repr

/-- The `VotingEngine.CRITERIA` table: names with weights, in declaration
order. -/
def votingCriteria : List (String × ℚ) :=
  [("accuracy", 0.25), ("evidence", 0.25), ("logic", 0.20),
    ("methodology", 0.15), ("clarity", 0.15)]

/-- Weight lookup `CRITERIA[c]["weight"]`. -/
def votingWeightOf (c : String) : ℚ :=
  match (votingCriteria.filter (fun p => p.1 = c)).head? with
  | some p => p.2
  | none => 0

/-- Fuel-indexed helper for `countSub`; the fuel (initially the haystack
length, always sufficient since every step consumes at least one character)
only makes the recursion structural. -/
def countSubAux (needle : List Char) : Nat → List Char → Nat
  | 0, _ => 0
  | _, [] => 0
  | fuel + 1, h :: t =>
    if needle.isPrefixOf (h :: t) ∧ needle ≠ [] then
      1 + countSubAux needle fuel (t.drop (needle.length - 1))
    else countSubAux needle fuel t

/-- Python `hay.count(needle)` for a non-empty needle: non-overlapping
occurrences, scanning left to right. -/
def countSub (needle hay : List Char) : Nat := countSubAux needle hay.length hay

/-- `VotingEngine._analyze_criterion` from `voting.py`: keyword heuristics on
the lowered position text, ending in the clamp `min(100, max(0, score))`. -/
def analyzeCriterion (criterion : String) (position : String) : ℚ :=
  let pl := (pyLower position).data
  let baseScore : ℚ := 60
  let baseScore :=
    if criterion = "accuracy" then
      let b :=
        if containsSub pl "[verified]".data || containsSub pl "confirmed".data
        then baseScore + 20 else baseScore
      let b :=
        if containsSub pl "citation removed".data then b - 15 else b
      if containsSub pl "[claim:".data ∧ containsSub pl "[citation:".data then
        b + 10
      else b
    else if criterion = "evidence" then
      let citationCount := countSub "[citation:".data pl +
        countSub "doi:".data pl + countSub "http".data pl
      baseScore + min ((citationCount : ℚ) * 5) 25
    else if criterion = "logic" then
      let logicMarkers := ["therefore", "because", "thus", "hence",
        "consequently"]
      let markerCount :=
        (logicMarkers.filter (fun m => containsSub pl m.data)).length
      let b := baseScore + min ((markerCount : ℚ) * 5) 20
      if containsSub pl "fallacy".data || containsSub pl "invalid".data then
        b - 10
      else b
    else if criterion = "methodology" then
      let methodMarkers := ["systematic", "peer-reviewed", "methodology",
        "analysis"]
      let markerCount :=
        (methodMarkers.filter (fun m => containsSub pl m.data)).length
      baseScore + min ((markerCount : ℚ) * 5) 20
    else if criterion = "clarity" then
      let structureMarkers := ["first,", "second,", "finally,", "in summary"]
      let markerCount :=
        (structureMarkers.filter (fun m => containsSub pl m.data)).length
      let b := baseScore + min ((markerCount : ℚ) * 5) 15
      if position.length > 5000 ∧ markerCount < 2 then b - 10 else b
    else baseScore
  min 100 (max 0 baseScore)

/-- Python `str.capitalize()`. -/
def pyCapitalize (s : String) : String :=
  match s.data with
  | [] => ""
  | h :: t => String.mk (Char.toUpper h :: t.map Char.toLower)

/-- `VotingEngine._criterion_feedback` from `voting.py` (numeric formatting
aside). -/
def criterionFeedback (criterion : String) (score : ℚ) : String :=
  if score ≥ 85 then pyCapitalize criterion ++ ": Excellent"
  else if score ≥ 75 then pyCapitalize criterion ++ ": Good"
  else if score ≥ 60 then pyCapitalize criterion ++ ": Needs improvement"
  else pyCapitalize criterion ++ ": Significant issues"

/-- `VotingEngine._vote_criterion` from `voting.py`. -/
def voteCriterion (passThreshold : ℚ) (criterion : String)
    (position : String) : CriterionVote :=
  let score := analyzeCriterion criterion position
  let status :=
    if score ≥ passThreshold then VoteStatus.pass
    else if score ≥ passThreshold * 0.7 then VoteStatus.abstain
    else VoteStatus.fail
  CriterionVote.mk criterion score status (criterionFeedback criterion score)

/-- `VotingEngine.vote` from `voting.py`: one `CriterionVote` per criterion,
the weighted average over the criterion scores, and the pass verdict
against the threshold.  The overall free-text feedback (string formatting
of the same numbers) is presentation-only and elided. -/
def vote (passThreshold : ℚ) (position : String) : VotingResult :=
  let votes := votingCriteria.map
    (fun p => voteCriterion passThreshold p.1 position)
  let criterionScores := votes.map (fun v => (v.criterion, v.score))
  let weightedAvg :=
    (criterionScores.map (fun p => p.2 * votingWeightOf p.1)).sum
  let passed := decide (weightedAvg ≥ passThreshold)
  VotingResult.mk passed weightedAvg criterionScores votes "" votes.length

/-- The `max_retries or int(os.getenv("MAX_RETRIES", "3"))` computation of
`VotingEngine.__init__`: a falsy argument (absent, or zero) falls back to
the environment default. -/
def votingEngineMaxRetries (maxRetriesArg : Option Nat)
    (envMaxRetries : Nat) : Nat :=
  match maxRetriesArg with
  | some n => if n = 0 then envMaxRetries else n
  | none => envMaxRetries

/-! ## Data model and loop: `adaptive_debate.py` -/

/-- `DebateStatus` enum from `adaptive_debate.py`. -/
inductive DebateStatus where
  | notStarted
  | inProgress
  | converged
  | maxRoundsReached
  | consensusReached
  | deadlock
deriving DecidableEq, Repr

/-- `DebateRound` dataclass from `adaptive_debate.py`. -/
structure DebateRound where
  roundNumber : Nat
  proponentResponse : String
  reviewerResponse : String
  proponentClaims : List String := []
  reviewerCritiques : List String := []
  roundScore : Option RoundScore := none
  citationReport : Option MoatReport := none
deriving DecidableEq, Repr

/-- `DebateResult` dataclass from `adaptive_debate.py`. -/
structure DebateResult where
  status : DebateStatus
  totalRounds : Nat
  finalPosition : String
  finalScore : ℚ
  votingResult : Option VotingResult := none
  rounds : List DebateRound := []
  consensusPoints : List String := []
  disputedPoints : List String := []
  reEvaluations : Nat := 0
deriving DecidableEq, Repr

/-- The window update in `run_debate` (lines 172-174): append the round's
total score, then `pop(0)` when the window exceeds `convergence_rounds`. -/
def pushScore (convergenceRounds : Nat) (window : List ℚ) (s : ℚ) : List ℚ :=
  let w := window ++ [s]
  if w.length > convergenceRounds then w.drop 1 else w

/-- `sum(recent_scores) / len(recent_scores)`. -/
def popMean (w : List ℚ) : ℚ := w.sum / (w.length : ℚ)

/-- The population variance computed by `_check_convergence`:
`sum((s - avg)**2 for s in recent_scores) / len(recent_scores)`. -/
def popVariance (w : List ℚ) : ℚ :=
  ((w.map (fun s => (s - popMean w) ^ 2)).sum) / (w.length : ℚ)

/-- `AdaptiveDebateEngine._check_convergence` from `adaptive_debate.py`:
false while the window is short, else population variance < 25. -/
def checkConvergence (convergenceRounds : Nat) (recentScores : List ℚ) :
    Bool :=
  if recentScores.length < convergenceRounds then false
  else decide (popVariance recentScores < 25)

/-- The round loop of `run_debate` (lines 133-185), abstracted over the
agents: `scores n` is the total score the scorer assigns to round `n`
(everything the loop branches on).  Returns the status on leaving the loop
(`inProgress` when the loop exhausted `max_rounds`), the last round number,
and the final window. -/
def runRounds (scores : Nat → ℚ) (maxRounds convergenceRounds : Nat)
    (qualityThreshold : ℚ) (roundNum : Nat) (window : List ℚ) :
    DebateStatus × Nat × List ℚ :=
  if roundNum < maxRounds then
    let rn := roundNum + 1
    let s := scores rn
    let w := pushScore convergenceRounds window s
    if checkConvergence convergenceRounds w then
      (DebateStatus.converged, rn, w)
    else if s ≥ qualityThreshold ∧ w.length ≥ convergenceRounds ∧
        ∀ x ∈ w, x ≥ qualityThreshold then
      (DebateStatus.consensusReached, rn, w)
    else
      runRounds scores maxRounds convergenceRounds qualityThreshold rn w
  else (DebateStatus.inProgress, roundNum, window)
termination_by maxRounds - roundNum

/-- The post-loop fix-up (lines 187-188): a loop that ran to exhaustion is
`MAX_ROUNDS_REACHED`. -/
def finalizeStatus (st : DebateStatus) : DebateStatus :=
  if st = DebateStatus.inProgress then DebateStatus.maxRoundsReached else st

/-- The voting re-evaluation loop of `run_debate` (lines 193-205):
`passedAt k` is whether the voting result after `k` re-evaluations passed
(`k = 0` is the initial post-loop vote); the loop increments the counter
while the vote fails and the counter is below the literal `3`.  Returns the
final `re_evaluations` counter. -/
def reEvalLoop (passedAt : Nat → Bool) (reEvaluations : Nat) : Nat :=
  if ¬ passedAt reEvaluations ∧ reEvaluations < 3 then
    reEvalLoop passedAt (reEvaluations + 1)
  else reEvaluations
termination_by 3 - reEvaluations

/-! ## `consensus.py` -/

/-- `ConsensusGenerator._determine_verdict` from `consensus.py`. -/
def determineVerdict (debateResult : DebateResult)
    (votingResult : Option VotingResult) : String :=
  if (match votingResult with | some v => !v.passed | none => false) then
    "REJECTED"
  else if debateResult.status = DebateStatus.consensusReached then
    if debateResult.finalScore ≥ 85 then "VALIDATED"
    else "PARTIALLY VALIDATED"
  else if debateResult.status = DebateStatus.converged then
    if debateResult.finalScore ≥ 75 then "PARTIALLY VALIDATED"
    else "NEEDS REVISION"
  else if debateResult.status = DebateStatus.deadlock then "INCONCLUSIVE"
  else "PARTIALLY VALIDATED"

/-- The verdict-precedence table exactly as the specification words it:
a failed vote is REJECTED regardless of status; else CONSENSUS_REACHED
splits on score ≥ 85, CONVERGED on score ≥ 75, DEADLOCK is INCONCLUSIVE,
and anything else defaults to PARTIALLY VALIDATED. -/
def specVerdict (debateResult : DebateResult) (votingResult : VotingResult) :
    String :=
  if votingResult.passed = false then "REJECTED"
  else
    match debateResult.status with
    | DebateStatus.consensusReached =>
      if debateResult.finalScore ≥ 85 then "VALIDATED"
      else "PARTIALLY VALIDATED"
    | DebateStatus.converged =>
      if debateResult.finalScore ≥ 75 then "PARTIALLY VALIDATED"
      else "NEEDS REVISION"
    | DebateStatus.deadlock => "INCONCLUSIVE"
    | _ => "PARTIALLY VALIDATED"

/-- `ConsensusGenerator._calculate_confidence` from `consensus.py`. -/
def consensusConfidence (debateResult : DebateResult)
    (votingResult : Option VotingResult) : ℚ :=
  let confidence := debateResult.finalScore
  let confidence :=
    match votingResult with
    | some v => (confidence + v.weightedAverage) / 2
    | none => confidence
  max 0 (confidence - (debateResult.reEvaluations : ℚ) * 5)

/-! ## Concrete sample data (evaluation inputs for closed theorems) -/

/-- A web lookup that verified. -/
def sampleWebVerified : ValidationResult :=
  ValidationResult.mk ValidationStatus.verified 100 none none none none none []

/-- A web lookup that found nothing. -/
def sampleWebNotFound : ValidationResult :=
  ValidationResult.mk ValidationStatus.notFound 0 none none none none none []

/-- On `"see https://doi.org/10.1234/x"` (29 characters), DOI pattern 1
(`https?://doi\.org/` prefixed) matches the whole URL at span (4, 29). -/
def doiOrgFullMatch : ExtractedCitation :=
  ExtractedCitation.mk "https://doi.org/10.1234/x" CitationType.doi (4, 29)
    none none (some "10.1234/x") none none

/-- On the same text, DOI pattern 2 (bare `10.xxxx/...`) matches at
span (20, 29). -/
def doiOrgBareMatch : ExtractedCitation :=
  ExtractedCitation.mk "10.1234/x" CitationType.doi (20, 29)
    none none (some "10.1234/x") none none

/-- On the same text, the URL pattern matches the whole URL at span (4, 29). -/
def doiOrgUrlMatch : ExtractedCitation :=
  ExtractedCitation.mk "https://doi.org/10.1234/x" CitationType.url (4, 29)
    none none none (some "https://doi.org/10.1234/x") none

/-- On `"see https://example.com/10.1234/x"` (33 characters), DOI pattern 2
matches the path tail at span (24, 33); DOI pattern 1 does not match (no
`doi.org` host). -/
def exampleComBareMatch : ExtractedCitation :=
  ExtractedCitation.mk "10.1234/x" CitationType.doi (24, 33)
    none none (some "10.1234/x") none none

/-- On the same text, the URL pattern matches the whole URL at span (4, 33). -/
def exampleComUrlMatch : ExtractedCitation :=
  ExtractedCitation.mk "https://example.com/10.1234/x" CitationType.url (4, 33)
    none none none (some "https://example.com/10.1234/x") none

/-- A report with no citations. -/
def emptyMoatReport : MoatReport := MoatReport.mk 0 0 0 0 0 [] []

/-- A report over four citations, three of which verified. -/
def sampleMoatReport : MoatReport := MoatReport.mk 4 3 0 1 0 [] []

/-- A constant round-score sequence (zero variance). -/
def constFifty : Nat → ℚ := fun _ => 50

/-- The numbered citation `[1]` at span (4, 7) of `"see [1] end"`. -/
def sampleNumberedCitation : ExtractedCitation :=
  ExtractedCitation.mk "[1]" CitationType.numbered (4, 7)
    none none none none (some 1)

/-- A strict-mode moat with no agents whose web lookups all miss. -/
def sampleMoatEnv : MoatEnv :=
  MoatEnv.mk true (fun _ => sampleWebNotFound)
    (fun d => DOIMetadata.mk d none [] none none none none false none)
    none none

/-- The text the sample citation was extracted from. -/
def sampleText : List Char := "see [1] end".data

/-! ## Helper lemmas -/

theorem clamp01_bounds (x : ℚ) : 0 ≤ clamp01 x ∧ clamp01 x ≤ 1 := by
  unfold clamp01
  exact ⟨le_min (by norm_num) (le_max_left 0 x), min_le_left 1 (max 0 x)⟩

theorem clamp0100_bounds (x : ℚ) :
    0 ≤ min 100 (max 0 x) ∧ min 100 (max 0 x) ≤ 100 :=
  ⟨le_min (by norm_num) (le_max_left 0 x), min_le_left 100 (max 0 x)⟩

theorem analyzeCriterion_bounds (c pos : String) :
    0 ≤ analyzeCriterion c pos ∧ analyzeCriterion c pos ≤ 100 :=
  clamp0100_bounds _

theorem reEvalLoop_le_three (passedAt : Nat → Bool) :
    ∀ (k r : Nat), 3 - r ≤ k → r ≤ 3 → reEvalLoop passedAt r ≤ 3 := by
  intro k
  induction k with
  | zero =>
    intro r hk hr
    have hr3 : r = 3 := by omega
    subst hr3
    rw [reEvalLoop]
    simp
  | succ n ih =>
    intro r hk hr
    rw [reEvalLoop]
    split
    · rename_i hcond
      exact ih (r + 1) (by omega) (by omega)
    · exact hr

/-! ## Claim theorems -/

/-- C1: `_make_decision` is a deterministic function of exactly the web
validation status, the two agent verdicts and the strict-mode flag, and it
matches the §4.3 table (`specDecisionTable`) on every one of the input
combinations; moreover the decision recorded on every verification the
pipeline produces is that same function of the recorded inputs — no hidden
state. -/
theorem moat_decision_matches_table :
    (∀ (strict : Bool) (ws : ValidationStatus) (a b : Bool),
      (makeDecision strict ws a b).1 = specDecisionTable strict ws a b) ∧
    (∀ (env : MoatEnv) (c : ExtractedCitation),
      (verifySingleCitation env c).decision =
        specDecisionTable env.strictMode (env.webValidate c).status
          (verifySingleCitation env c).agentAVerified
          (verifySingleCitation env c).agentBVerified) := by
  have h1 : ∀ (strict : Bool) (ws : ValidationStatus) (a b : Bool),
      (makeDecision strict ws a b).1 = specDecisionTable strict ws a b := by
    intro strict ws a b
    cases ws <;> cases strict <;> cases a <;> cases b <;> decide
  refine ⟨h1, ?_⟩
  intro env c
  exact h1 env.strictMode (env.webValidate c).status
    ((verifySingleCitation env c).agentAVerified)
    ((verifySingleCitation env c).agentBVerified)

/-- C2 counterexample: an agent exception does *not* make the verdict
`false` — with a VERIFIED web result the caught-exception fallback returns
`true` (`moat_engine.py` line 232 falls back to the web verdict). -/
theorem agent_exception_not_unverified :
    ¬ (agentVerify (Except.error "LLM backend unavailable") sampleWebVerified
        = false) := by
  decide

/-- C2 amended: an exception from an agent's `verify_citation` call is
caught locally and the agent's verdict falls back to whether the *web*
validation status was VERIFIED (so it is `false` exactly when the web
status was anything else); the exception never propagates and the
remaining citations are all still processed (one verification per
citation). -/
theorem agent_exception_fallback :
    (∀ (e : String) (w : ValidationResult),
      agentVerify (Except.error e) w =
        decide (w.status = ValidationStatus.verified)) ∧
    (∀ (env : MoatEnv) (citations : List ExtractedCitation),
      (verifyCitations env citations).length = citations.length) := by
  constructor
  · intro e w
    rfl
  · intro env citations
    exact List.length_map citations _

/-- C3 counterexample: with `VotingEngine` configured with `max_retries = 1`
and every vote failing, the retry loop in `run_debate` (whose bound is the
literal `3`, not the configured value) performs 3 re-evaluations,
exceeding the configured `max_retries`. -/
theorem reeval_exceeds_configured_retries :
    votingEngineMaxRetries (some 1) 3 = 1 ∧
    reEvalLoop (fun _ => false) 0 = 3 ∧
    ¬ (reEvalLoop (fun _ => false) 0 ≤ votingEngineMaxRetries (some 1) 3) := by
  have h2 : reEvalLoop (fun _ => false) 0 = 3 := by
    rw [reEvalLoop, reEvalLoop, reEvalLoop, reEvalLoop]
    norm_num
  refine ⟨by decide, h2, ?_⟩
  rw [h2]
  decide

/-- C3 amended: the re-vote loop is capped by the hardcoded literal `3`
(which coincides with `max_retries` only at its default value): starting
from any counter value at most 3 the final `re_evaluations` counter never
exceeds 3, reaching the cap terminates the loop normally (it returns,
never raises), and the default configuration of `VotingEngine.max_retries`
is that same 3. -/
theorem reeval_cap_is_three (passedAt : Nat → Bool) (r : Nat) (h : r ≤ 3) :
    reEvalLoop passedAt r ≤ 3 ∧
    reEvalLoop passedAt 3 = 3 ∧
    votingEngineMaxRetries none 3 = 3 := by
  refine ⟨reEvalLoop_le_three passedAt (3 - r) r (by omega) h, ?_, rfl⟩
  rw [reEvalLoop]
  simp

/-- C3 amended, witness: the loop applied from a fresh counter. -/
theorem reeval_cap_is_three_witness :
    (0 : Nat) ≤ 3 ∧
    (reEvalLoop (fun _ => true) 0 ≤ 3 ∧
      reEvalLoop (fun _ => true) 3 = 3 ∧
      votingEngineMaxRetries none 3 = 3) :=
  ⟨by decide, reeval_cap_is_three (fun _ => true) 0 (by decide)⟩

/-- C6: `MoatReport.verification_rate` is 100.0 on a report with zero
citations, and `100 × verified / total` on a report with a positive
citation count. -/
theorem moat_verification_rate (r : MoatReport) :
    (r.totalCitations = 0 → r.verificationRate = 100) ∧
    (0 < r.totalCitations →
      r.verificationRate =
        100 * (r.verifiedCount : ℚ) / (r.totalCitations : ℚ)) := by
  constructor
  · intro h
    unfold MoatReport.verificationRate
    rw [if_pos h]
  · intro h
    unfold MoatReport.verificationRate
    rw [if_neg (by omega)]
    ring

/-- C6 witness: a 3-of-4 report and an empty report. -/
theorem moat_verification_rate_witness :
    0 < sampleMoatReport.totalCitations ∧
    sampleMoatReport.verificationRate =
      100 * (sampleMoatReport.verifiedCount : ℚ) /
        (sampleMoatReport.totalCitations : ℚ) ∧
    emptyMoatReport.verificationRate = 100 :=
  ⟨by decide, (moat_verification_rate sampleMoatReport).2 (by decide),
    (moat_verification_rate emptyMoatReport).1 (by decide)⟩

/-- C7: on every (`DebateResult`, `VotingResult`) pair the verdict of
`_determine_verdict` equals the spec's precedence table (`specVerdict`):
failed voting gives REJECTED regardless of status, then
CONSENSUS_REACHED/CONVERGED split on the 85/75 score thresholds, DEADLOCK
is INCONCLUSIVE, everything else defaults to PARTIALLY VALIDATED. -/
theorem consensus_verdict_precedence (d : DebateResult) (v : VotingResult) :
    determineVerdict d (some v) = specVerdict d v := by
  cases hp : v.passed <;> cases hs : d.status <;>
    simp [determineVerdict, specVerdict, hp, hs]

/-- C8: every sub-score of a `RoundScore` produced by `score_round` lies in
[0,1] (each `_score_*` method ends in the `min(1, max(0, ·))` clamp), and
every per-criterion score in a `VotingResult` produced by `vote` lies in
[0,100] (`_analyze_criterion` ends in `min(100, max(0, ·))`). -/
theorem scores_stay_in_bounds :
    (∀ (pr rr : String) (rep : Option MoatReport),
      (0 ≤ (scoreRound pr rr rep).accuracy ∧ (scoreRound pr rr rep).accuracy ≤ 1) ∧
      (0 ≤ (scoreRound pr rr rep).evidence ∧ (scoreRound pr rr rep).evidence ≤ 1) ∧
      (0 ≤ (scoreRound pr rr rep).logic ∧ (scoreRound pr rr rep).logic ≤ 1) ∧
      (0 ≤ (scoreRound pr rr rep).methodology ∧
        (scoreRound pr rr rep).methodology ≤ 1) ∧
      (0 ≤ (scoreRound pr rr rep).clarity ∧ (scoreRound pr rr rep).clarity ≤ 1)) ∧
    (∀ (threshold : ℚ) (position : String),
      ((vote threshold position).criterionScores.all
        (fun p => decide (0 ≤ p.2 ∧ p.2 ≤ 100))) = true) := by
  constructor
  · intro pr rr rep
    exact ⟨clamp01_bounds _, clamp01_bounds _, clamp01_bounds _,
      clamp01_bounds _, clamp01_bounds _⟩
  · intro threshold position
    rw [List.all_eq_true]
    intro p hp
    simp only [vote, List.map_map, List.mem_map] at hp
    obtain ⟨q, _, hq⟩ := hp
    rw [← hq]
    exact decide_eq_true (analyzeCriterion_bounds _ _)

/-! Helper lemmas about the counting fold of `verify_text`. -/

theorem foldl_tally_counts (vs : List CitationVerification) (r : MoatReport) :
    (vs.foldl tallyDecision r).verifiedCount +
      (vs.foldl tallyDecision r).modifiedCount +
      (vs.foldl tallyDecision r).deletedCount +
      (vs.foldl tallyDecision r).flaggedCount =
    r.verifiedCount + r.modifiedCount + r.deletedCount + r.flaggedCount +
      vs.length := by
  induction vs generalizing r with
  | nil => simp
  | cons v t ih =>
    rw [List.foldl_cons]
    rw [ih (tallyDecision r v)]
    cases hd : v.decision <;> simp [tallyDecision, hd] <;> omega

theorem foldl_tally_totalCitations (vs : List CitationVerification)
    (r : MoatReport) :
    (vs.foldl tallyDecision r).totalCitations = r.totalCitations := by
  induction vs generalizing r with
  | nil => rfl
  | cons v t ih =>
    rw [List.foldl_cons, ih (tallyDecision r v)]
    cases hd : v.decision <;> simp [tallyDecision, hd]

theorem foldl_tally_verifications (vs : List CitationVerification)
    (r : MoatReport) :
    (vs.foldl tallyDecision r).verifications = r.verifications := by
  induction vs generalizing r with
  | nil => rfl
  | cons v t ih =>
    rw [List.foldl_cons, ih (tallyDecision r v)]
    cases hd : v.decision <;> simp [tallyDecision, hd]

/-- C9: for every `verify_text` run, the four decision counters partition
the citations — their sum is `total_citations`, which is the length of the
verifications list, which is the number of extracted citations handed to
the verification loop. -/
theorem moat_report_counts (env : MoatEnv) (text : List Char)
    (citations : List ExtractedCitation) :
    (verifyTextFrom env text citations).verifiedCount +
        (verifyTextFrom env text citations).modifiedCount +
        (verifyTextFrom env text citations).deletedCount +
        (verifyTextFrom env text citations).flaggedCount =
      (verifyTextFrom env text citations).totalCitations ∧
    (verifyTextFrom env text citations).totalCitations =
      (verifyTextFrom env text citations).verifications.length ∧
    (verifyTextFrom env text citations).verifications.length =
      citations.length := by
  unfold verifyTextFrom
  by_cases hc : citations.isEmpty
  · rw [List.isEmpty_iff] at hc
    subst hc
    simp
  · simp only [hc, if_neg, Bool.false_eq_true, not_false_eq_true, if_false]
    have hlen : (verifyCitations env citations).length = citations.length :=
      List.length_map citations _
    refine ⟨?_, ?_, ?_⟩
    · simp only [foldl_tally_counts, foldl_tally_totalCitations]
      simp [hlen]
    · simp only [foldl_tally_totalCitations, foldl_tally_verifications]
      simp [hlen]
    · simp only [foldl_tally_verifications]
      simp [hlen]

/-- C4: at any point of the round loop, as soon as the updated sliding
window holds `convergence_rounds` scores with population variance strictly
below 25 (population standard deviation below 5), the loop returns
immediately with status CONVERGED at that round — which is within
`max_rounds` — and the post-loop fix-up leaves CONVERGED intact. -/
theorem convergence_stops_loop (scores : Nat → ℚ)
    (maxRounds convergenceRounds : Nat) (qualityThreshold : ℚ)
    (roundNum : Nat) (window : List ℚ)
    (hr : roundNum < maxRounds)
    (hfull : (pushScore convergenceRounds window
      (scores (roundNum + 1))).length = convergenceRounds)
    (hvar : popVariance (pushScore convergenceRounds window
      (scores (roundNum + 1))) < 25) :
    runRounds scores maxRounds convergenceRounds qualityThreshold roundNum
        window =
      (DebateStatus.converged, roundNum + 1,
        pushScore convergenceRounds window (scores (roundNum + 1))) ∧
    roundNum + 1 ≤ maxRounds ∧
    finalizeStatus DebateStatus.converged = DebateStatus.converged := by
  have hcv : checkConvergence convergenceRounds
      (pushScore convergenceRounds window (scores (roundNum + 1))) = true := by
    unfold checkConvergence
    rw [if_neg (by omega)]
    exact decide_eq_true hvar
  refine ⟨?_, by omega, by decide⟩
  rw [runRounds]
  rw [if_pos hr]
  simp only [hcv, if_pos]

/-- C4 witness: a constant score stream converges at round 3 (window full,
variance 0). -/
theorem convergence_stops_loop_witness :
    (2 < 20 ∧
      (pushScore 3 [50, 50] (constFifty 3)).length = 3 ∧
      popVariance (pushScore 3 [50, 50] (constFifty 3)) < 25) ∧
    (runRounds constFifty 20 3 85 2 [50, 50] =
        (DebateStatus.converged, 3, pushScore 3 [50, 50] (constFifty 3)) ∧
      3 ≤ 20 ∧
      finalizeStatus DebateStatus.converged = DebateStatus.converged) := by
  have hpush : pushScore 3 [50, 50] (constFifty 3) = [50, 50, 50] := by
    simp [pushScore, constFifty]
  have hfull : (pushScore 3 [50, 50] (constFifty 3)).length = 3 := by
    rw [hpush]
    rfl
  have hvar : popVariance (pushScore 3 [50, 50] (constFifty 3)) < 25 := by
    rw [hpush]
    simp [popVariance, popMean]
    norm_num
  exact ⟨⟨by decide, hfull, hvar⟩,
    convergence_stops_loop constFifty 20 3 85 2 [50, 50] (by decide)
      hfull hvar⟩

/-- C5 counterexample: the match list produced by the pattern scan on
`"see https://example.com/10.1234/x"` is a bare-DOI match at (24, 33)
strictly inside the URL match at (4, 33) — the DOI does *not* win: the
deduplicated extraction keeps only the URL citation (the replacement rule
at `extractor.py` line 173 requires the later span to extend strictly
beyond the kept one). -/
theorem doi_inside_url_does_not_win :
    ¬ (∃ c ∈ extractAllFrom [exampleComBareMatch, exampleComUrlMatch],
      c.citationType = CitationType.doi) := by
  decide

/-- C5 amended: overlap resolution keeps the first citation in start order
and replaces it with a later overlapping one only when that citation both
extends strictly beyond the kept span *and* has strictly higher priority;
on `"see https://doi.org/10.1234/x"` the extraction still yields exactly
one DOI citation — because DOI pattern 1 itself matches the full
`doi.org` URL span — while a DOI strictly inside a generic URL span is
dropped in favour of the URL. -/
theorem overlap_resolution_rule (a b : ExtractedCitation)
    (hsort : a.position.1 ≤ b.position.1)
    (hover : b.position.1 < a.position.2) :
    extractAllFrom [a, b] =
      (if b.position.2 > a.position.2 ∧ priorityOf b > priorityOf a then [b]
        else [a]) ∧
    extractAllFrom [doiOrgFullMatch, doiOrgBareMatch, doiOrgUrlMatch] =
      [doiOrgFullMatch] ∧
    extractAllFrom [exampleComBareMatch, exampleComUrlMatch] =
      [exampleComUrlMatch] := by
  refine ⟨?_, by decide, by decide⟩
  unfold extractAllFrom deduplicate
  simp only [List.insertionSort, List.orderedInsert, if_pos hsort]
  simp only [List.foldl_cons, List.foldl_nil, dedupStep, List.getLast?_singleton]
  rw [if_neg (by omega)]
  by_cases hext : b.position.2 > a.position.2
  · by_cases hpri : priorityOf b > priorityOf a
    · rw [if_pos hext, if_pos hpri, if_pos ⟨hext, hpri⟩]
      rfl
    · rw [if_pos hext, if_neg hpri, if_neg (by tauto)]
      rfl
  · rw [if_neg hext, if_neg (by tauto)]
    rfl

/-- C5 amended, witness: the generic-URL pair instantiates the general
rule (the URL is kept since the inner DOI does not extend beyond it). -/
theorem overlap_resolution_rule_witness :
    (exampleComUrlMatch.position.1 ≤ exampleComBareMatch.position.1 ∧
      exampleComBareMatch.position.1 < exampleComUrlMatch.position.2) ∧
    (extractAllFrom [exampleComUrlMatch, exampleComBareMatch] =
        (if exampleComBareMatch.position.2 > exampleComUrlMatch.position.2 ∧
            priorityOf exampleComBareMatch > priorityOf exampleComUrlMatch
          then [exampleComBareMatch] else [exampleComUrlMatch]) ∧
      extractAllFrom [doiOrgFullMatch, doiOrgBareMatch, doiOrgUrlMatch] =
        [doiOrgFullMatch] ∧
      extractAllFrom [exampleComBareMatch, exampleComUrlMatch] =
        [exampleComUrlMatch]) :=
  ⟨⟨by decide, by decide⟩,
    overlap_resolution_rule exampleComUrlMatch exampleComBareMatch
      (by decide) (by decide)⟩

/-! Helper lemmas for the clean-text rewrite (C10). -/

theorem spansChainB_mono (n lo' lo : Nat) (h : lo' ≤ lo)
    (vs : List CitationVerification) :
    spansChainB lo n vs = true → spansChainB lo' n vs = true := by
  cases vs with
  | nil => intro _; rfl
  | cons v t =>
    intro hh
    simp only [spansChainB, Bool.and_eq_true, decide_eq_true_eq] at hh ⊢
    exact ⟨⟨by omega, hh.1.2⟩, hh.2⟩

theorem chain_start_lb (n : Nat) (vs : List CitationVerification) :
    ∀ (lo : Nat), spansChainB lo n vs = true →
      ∀ b ∈ vs, lo ≤ b.originalCitation.position.1 := by
  induction vs with
  | nil => intro lo _ b hb; cases hb
  | cons v t ih =>
    intro lo hh b hb
    simp only [spansChainB, Bool.and_eq_true, decide_eq_true_eq] at hh
    rcases List.mem_cons.mp hb with hb | hb
    · subst hb
      exact hh.1.1
    · have := ih v.originalCitation.position.2 hh.2 b hb
      omega

theorem orderedInsert_append_last {α : Type} (r : α → α → Prop)
    [DecidableRel r] (v : α) :
    ∀ (l : List α), (∀ b ∈ l, ¬ r v b) →
      List.orderedInsert r v l = l ++ [v] := by
  intro l
  induction l with
  | nil => intro _; rfl
  | cons b t ih =>
    intro h
    simp only [List.orderedInsert]
    rw [if_neg (h b (List.mem_cons_self b t))]
    rw [ih (fun x hx => h x (List.mem_cons_of_mem b hx))]
    rfl

theorem sortDesc_eq_reverse (n : Nat) (vs : List CitationVerification) :
    ∀ (lo : Nat), spansChainB lo n vs = true →
      sortByStartDesc vs = vs.reverse := by
  induction vs with
  | nil => intro lo _; rfl
  | cons v t ih =>
    intro lo hh
    simp only [spansChainB, Bool.and_eq_true, decide_eq_true_eq] at hh
    unfold sortByStartDesc at ih ⊢
    rw [List.insertionSort]
    rw [ih v.originalCitation.position.2 hh.2]
    rw [orderedInsert_append_last _ v t.reverse ?_, List.reverse_cons]
    intro b hb
    have hbt : b ∈ t := List.mem_reverse.mp hb
    have h2 := chain_start_lb n t v.originalCitation.position.2 hh.2 b hbt
    have h3 := hh.1.2.1
    omega

theorem take_drop_split {α : Type} (l : List α) (p q s : Nat)
    (h1 : p ≤ q) (h2 : q ≤ s) :
    (l.take s).drop p = (l.take q).drop p ++ (l.take s).drop q := by
  rw [List.drop_take, List.drop_take, List.drop_take]
  rw [show s - p = (q - p) + (s - q) by omega, List.take_add]
  congr 1
  rw [List.drop_drop, show p + (q - p) = q by omega]

theorem rebuild_split (text : List Char) (p q : Nat)
    (vs : List CitationVerification) (hpq : p ≤ q)
    (hq : spansChainB q text.length vs = true) :
    rebuildClean text p vs = ((text.take q).drop p) ++ rebuildClean text q vs := by
  cases vs with
  | nil =>
    show text.drop p = (text.take q).drop p ++ text.drop q
    have hdq : text.drop q = (text.drop p).drop (q - p) := by
      rw [List.drop_drop, show p + (q - p) = q by omega]
    rw [List.drop_take, hdq]
    exact (List.take_append_drop _ _).symm
  | cons v t =>
    simp only [spansChainB, Bool.and_eq_true, decide_eq_true_eq] at hq
    show ((text.take v.originalCitation.position.1).drop p) ++ _ ++ _ =
      ((text.take q).drop p) ++
        (((text.take v.originalCitation.position.1).drop q) ++ _ ++ _)
    rw [take_drop_split text p q v.originalCitation.position.1 hpq hq.1.1]
    simp [List.append_assoc]

theorem renderEdit_at_head (text rest : List Char) (v : CitationVerification)
    (hse : v.originalCitation.position.1 < v.originalCitation.position.2)
    (hen : v.originalCitation.position.2 ≤ text.length) :
    renderEdit (text.take v.originalCitation.position.2 ++ rest) v =
      text.take v.originalCitation.position.1 ++
        renderSpan v ((text.take v.originalCitation.position.2).drop
          v.originalCitation.position.1) ++ rest := by
  have lenA : (text.take v.originalCitation.position.2).length =
      v.originalCitation.position.2 := by
    rw [List.length_take]
    omega
  have hTakeS : (text.take v.originalCitation.position.2 ++ rest).take
      v.originalCitation.position.1 = text.take v.originalCitation.position.1 := by
    rw [List.take_append_of_le_length (by omega)]
    rw [List.take_take, inf_eq_left.mpr (le_of_lt hse)]
  have hDropE : (text.take v.originalCitation.position.2 ++ rest).drop
      v.originalCitation.position.2 = rest := by
    have h := List.drop_left (text.take v.originalCitation.position.2) rest
    rw [lenA] at h
    exact h
  have hTakeE : (text.take v.originalCitation.position.2 ++ rest).take
      v.originalCitation.position.2 = text.take v.originalCitation.position.2 := by
    have h := List.take_left (text.take v.originalCitation.position.2) rest
    rw [lenA] at h
    exact h
  have hSplitA : text.take v.originalCitation.position.2 =
      text.take v.originalCitation.position.1 ++
        (text.take v.originalCitation.position.2).drop
          v.originalCitation.position.1 := by
    conv_lhs => rw [← List.take_append_drop v.originalCitation.position.1
      (text.take v.originalCitation.position.2)]
    rw [List.take_take, inf_eq_left.mpr (le_of_lt hse)]
  cases hd : v.decision
  · -- keep
    simp only [renderEdit, renderSpan, hd]
    conv_lhs => rw [hSplitA]
  · -- modify
    by_cases halt : strTruthy v.alternativeSource
    · simp only [renderEdit, renderSpan, hd, if_pos halt]
      rw [hTakeS, hDropE]
    · simp only [renderEdit, renderSpan, hd, if_neg halt]
      conv_lhs => rw [hSplitA]
  · -- delete
    simp only [renderEdit, renderSpan, hd]
    rw [hTakeS, hDropE]
  · -- flag
    simp only [renderEdit, renderSpan, hd]
    rw [hTakeS, hDropE, hTakeE]
    simp [List.append_assoc]

theorem foldl_renderEdit_eq_rebuild (text : List Char) :
    ∀ (vs : List CitationVerification),
      spansChainB 0 text.length vs = true →
        (vs.reverse).foldl renderEdit text = rebuildClean text 0 vs := by
  intro vs
  induction vs with
  | nil =>
    intro _
    show text = text.drop 0
    rw [List.drop_zero]
  | cons v t ih =>
    intro h
    have hparts : _ := h
    simp only [spansChainB, Bool.and_eq_true, decide_eq_true_eq] at hparts
    rw [List.reverse_cons, List.foldl_append]
    rw [ih (spansChainB_mono text.length 0 v.originalCitation.position.2
      (Nat.zero_le _) t hparts.2)]
    rw [rebuild_split text 0 v.originalCitation.position.2 t
      (Nat.zero_le _) hparts.2]
    rw [List.drop_zero]
    simp only [List.foldl_cons, List.foldl_nil]
    rw [renderEdit_at_head text (rebuildClean text
      v.originalCitation.position.2 t) v hparts.1.2.1 hparts.1.2.2]
    show _ = ((text.take v.originalCitation.position.1).drop 0) ++ _ ++ _
    rw [List.drop_zero]

theorem verifySingleCitation_alt_none (env : MoatEnv)
    (c : ExtractedCitation) :
    (verifySingleCitation env c).alternativeSource = none := rfl

theorem verifyTextFrom_verifications (env : MoatEnv) (text : List Char)
    (citations : List ExtractedCitation) :
    (verifyTextFrom env text citations).verifications =
      verifyCitations env citations := by
  unfold verifyTextFrom
  by_cases hc : citations.isEmpty
  · rw [List.isEmpty_iff] at hc
    subst hc
    simp [verifyCitations]
  · simp only [hc, Bool.false_eq_true, not_false_eq_true, if_false]
    exact foldl_tally_verifications _ _

/-- C10: the pipeline never populates `alternative_source` (it is `None` on
every verification `verify_text` returns), and consequently the rewritten
clean text is the left-to-right reconstruction `rebuildClean`: the text
outside decided spans is copied verbatim, KEEP and (alternative-less)
MODIFY spans stay verbatim, and only DELETE and FLAG spans are altered
(marker substitution / review wrapping).  The hypothesis is the span shape
`extract_all` guarantees: sorted, non-empty, non-overlapping, in
bounds. -/
theorem clean_text_frame (env : MoatEnv) (text : List Char)
    (citations : List ExtractedCitation)
    (h : spansChainB 0 text.length (verifyCitations env citations) = true) :
    (∀ v ∈ (verifyTextFrom env text citations).verifications,
      v.alternativeSource = none) ∧
    (verifyTextFrom env text citations).cleanText =
      rebuildClean text 0 (verifyTextFrom env text citations).verifications := by
  rw [verifyTextFrom_verifications]
  constructor
  · intro v hv
    obtain ⟨c, _, rfl⟩ := List.mem_map.mp hv
    rfl
  · unfold verifyTextFrom
    by_cases hc : citations.isEmpty
    · rw [List.isEmpty_iff] at hc
      subst hc
      show text = rebuildClean text 0 (verifyCitations env [])
      show text = text.drop 0
      rw [List.drop_zero]
    · simp only [hc, Bool.false_eq_true, not_false_eq_true, if_false]
      show generateCleanText text (verifyCitations env citations) = _
      unfold generateCleanText
      rw [sortDesc_eq_reverse text.length (verifyCitations env citations) 0 h]
      exact foldl_renderEdit_eq_rebuild text _ h

/-- C10 witness: a strict no-agent moat over `"see [1] end"` with the one
numbered citation. -/
theorem clean_text_frame_witness :
    (spansChainB 0 sampleText.length
      (verifyCitations sampleMoatEnv [sampleNumberedCitation]) = true) ∧
    ((∀ v ∈ (verifyTextFrom sampleMoatEnv sampleText
        [sampleNumberedCitation]).verifications, v.alternativeSource = none) ∧
      (verifyTextFrom sampleMoatEnv sampleText
          [sampleNumberedCitation]).cleanText =
        rebuildClean sampleText 0 (verifyTextFrom sampleMoatEnv sampleText
          [sampleNumberedCitation]).verifications) :=
  ⟨by decide, clean_text_frame sampleMoatEnv sampleText
    [sampleNumberedCitation] (by decide)⟩

end PaperGen
